import Mathlib

/-!
Verification of the order-matching core of the repository
(backend/order-engine: pkg/types/order.go, the orderbook package in
src/unnamed/part_005, and pkg/matching/engine.go).

Modelling conventions:
- Go float64 prices and quantities are modelled as Int. Every value
  occurring in the verified scenarios is a small integer, on which
  float64 arithmetic (+, -, min, comparisons) coincides with exact
  integer arithmetic.
- Go string ids, user ids and symbols are Lean String.
- The two heaps of price levels (container/heap over buyPriceLevels /
  sellPriceLevels) are modelled as lists kept best-price-first: the
  heap contract only guarantees that element 0 is the best-priced
  level, which is the only positional access the source performs
  (GetBestBid/GetBestAsk read levels[0]); find-or-create and removal
  scan the collection, which is order-insensitive.
- The Go map[string]*types.Order and the *types.Order pointers stored
  inside price levels alias the same objects; the embedding keeps the
  order data in a single association-list store and the levels hold
  order ids, so a write through the store is seen by every reader,
  exactly as a pointer write is.
- time.Now() timestamps (CreatedAt/UpdatedAt/ExecutedAt) and the
  uuid-generated Trade.ID are observational only and are omitted.
- fmt.Errorf messages are carried as plain strings (interpolated ids
  elided).
-/

/-- Go types.OrderType (pkg/types/order.go): LIMIT, MARKET, STOP. -/
inductive OrderType where
| limit
| market
| stop
deriving Repr, DecidableEq

/-- Go types.OrderSide: BUY, SELL. -/
inductive Side where
| buy
| sell
deriving Repr, DecidableEq

/-- Go types.OrderStatus values NEW, PARTIAL, FILLED, CANCELLED, REJECTED. -/
inductive OrderStatus where
| NEW
| PARTIAL
| FILLED
| CANCELLED
| REJECTED
deriving Repr, DecidableEq

/-- Go types.Order (pkg/types/order.go). StopPrice is carried only by the
HTTP layer; CreatedAt/UpdatedAt are omitted (observational). -/
structure Order where
id : String
userId : String
symbol : String
type : OrderType
side : Side
price : Int
quantity : Int
filledQty : Int
remainingQty : Int
status : OrderStatus
deriving Repr, DecidableEq

/-- Go types.Trade (pkg/types/order.go); ID and ExecutedAt omitted. -/
structure Trade where
symbol : String
buyOrderId : String
sellOrderId : String
price : Int
quantity : Int
buyerUserId : String
sellerUserId : String
deriving Repr, DecidableEq

/-- Go priceLevel (orderbook package): price, FIFO slice of resting
orders (held by id, see the aliasing note above), aggregate volume. -/
structure PriceLevel where
price : Int
orders : List String
volume : Int
deriving Repr, DecidableEq

/-- Go OrderBook (orderbook package): symbol, buy/sell price-level
heaps (modelled best-first), and the id-to-order map. The mutex is a
concurrency artifact with no sequential semantics. -/
structure OrderBook where
symbol : String
bids : List PriceLevel
asks : List PriceLevel
orders : List (String × Order)
deriving Repr, DecidableEq

/-- Go types.OrderBookLevel. -/
structure OrderBookLevel where
price : Int
quantity : Int
orders : Nat
deriving Repr, DecidableEq

/-- Go types.OrderBookSnapshot (Timestamp omitted). -/
structure OrderBookSnapshot where
symbol : String
bids : List OrderBookLevel
asks : List OrderBookLevel
deriving Repr, DecidableEq

/-- Go NewOrderBook. -/
def NewOrderBook (symbol : String) : OrderBook :=
{ symbol := symbol, bids := [], asks := [], orders := [] }

/-- Write through the id map (Go: assignment through the shared
pointer, visible in the map and in every level holding the order). -/
def storeUpdate (s : List (String × Order)) (oid : String) (o : Order) :
    List (String × Order) :=
s.map fun p => if p.1 = oid then (oid, o) else p

/-- Find the first level with the given price and append the order id
to its FIFO slice, adding the order's remaining quantity to the
level volume (AddOrder lines 170-188: the find-or-create scan breaks
at the first matching level). Returns the levels unchanged when no
level has the price. -/
def appendToLevel (levels : List PriceLevel) (price : Int) (oid : String)
    (rem : Int) : List PriceLevel :=
match levels with
| [] => []
| l :: ls =>
  if l.price = price then
    { l with orders := l.orders ++ [oid], volume := l.volume + rem } :: ls
  else
    l :: appendToLevel ls price oid rem

/-- heap.Push on the bid side (max-heap by price, buyPriceLevels.Less):
the embedding keeps the list ordered with the highest price first,
which realises the heap contract used by the source (element 0 is the
best level). -/
def insertBidLevel (levels : List PriceLevel) (l : PriceLevel) :
    List PriceLevel :=
match levels with
| [] => [l]
| x :: xs => if x.price < l.price then l :: x :: xs else x :: insertBidLevel xs l

/-- heap.Push on the ask side (min-heap by price, sellPriceLevels.Less):
lowest price first. -/
def insertAskLevel (levels : List PriceLevel) (l : PriceLevel) :
    List PriceLevel :=
match levels with
| [] => [l]
| x :: xs => if l.price < x.price then l :: x :: xs else x :: insertAskLevel xs l

/-- Go OrderBook.AddOrder (part_005 lines 144-191). Note that it
REINITIALISES the order (status NEW, remaining = quantity, filled = 0)
before inserting: the engine also routes a partially matched limit
taker's residual through it. The mutated order is returned alongside
the book, mirroring the write through the *types.Order pointer. -/
def OrderBook.AddOrder (ob : OrderBook) (order : Order) :
    Except String (OrderBook × Order) :=
if (List.lookup order.id ob.orders).isSome then
  Except.error "order already exists"
else
  let order := { order with
    status := OrderStatus.NEW
    remainingQty := order.quantity
    filledQty := 0 }
  let store := (order.id, order) :: ob.orders
  let newLevel : PriceLevel :=
    { price := order.price, orders := [order.id], volume := order.remainingQty }
  if order.side = Side.buy then
    if ob.bids.any fun l => l.price = order.price then
      let bids2 := appendToLevel ob.bids order.price order.id order.remainingQty
      Except.ok ({ ob with orders := store, bids := bids2 }, order)
    else
      let bids2 := insertBidLevel ob.bids newLevel
      Except.ok ({ ob with orders := store, bids := bids2 }, order)
  else
    if ob.asks.any fun l => l.price = order.price then
      let asks2 := appendToLevel ob.asks order.price order.id order.remainingQty
      Except.ok ({ ob with orders := store, asks := asks2 }, order)
    else
      let asks2 := insertAskLevel ob.asks newLevel
      Except.ok ({ ob with orders := store, asks := asks2 }, order)

/-- Remove the first occurrence of the id from the level's FIFO slice
and subtract the removed order's CURRENT remaining quantity from the
volume (CancelOrder lines 220-226); the level is unchanged when the id
is not in it. -/
def PriceLevel.removeOrder (l : PriceLevel) (oid : String) (rem : Int) :
    PriceLevel :=
if l.orders.contains oid then
  { l with orders := l.orders.erase oid, volume := l.volume - rem }
else l

/-- CancelOrder lines 218-229: scan for the first level with the
order's price (break afterwards) and remove the order from it. -/
def removeOrderFromLevels (levels : List PriceLevel) (price : Int)
    (oid : String) (rem : Int) : List PriceLevel :=
match levels with
| [] => []
| l :: ls =>
  if l.price = price then l.removeOrder oid rem :: ls
  else l :: removeOrderFromLevels ls price oid rem

/-- Go OrderBook.CancelOrder (part_005 lines 193-232). It sets the
status to CANCELLED and removes the order from its price level, but
it does NOT delete the id-map entry, does not remove an emptied
level, and its terminal check only looks for CANCELLED. -/
def OrderBook.CancelOrder (ob : OrderBook) (orderID : String) :
    Except String OrderBook :=
match List.lookup orderID ob.orders with
| none => Except.error "order not found"
| some order =>
  if order.status = OrderStatus.CANCELLED then
    Except.error "order already cancelled"
  else
    let updated := { order with status := OrderStatus.CANCELLED }
    let store := storeUpdate ob.orders orderID updated
    if order.side = Side.buy then
      let bids2 := removeOrderFromLevels ob.bids order.price orderID order.remainingQty
      Except.ok { ob with orders := store, bids := bids2 }
    else
      let asks2 := removeOrderFromLevels ob.asks order.price orderID order.remainingQty
      Except.ok { ob with orders := store, asks := asks2 }

/-- Go OrderBook.GetOrder (part_005 lines 234-244). -/
def OrderBook.GetOrder (ob : OrderBook) (orderID : String) :
    Except String Order :=
match List.lookup orderID ob.orders with
| none => Except.error "order not found"
| some order => Except.ok order

/-- Go OrderBook.GetBestBid (part_005 lines 276-294): error on a
foreign symbol; none when there is no level or the first level holds
no orders; otherwise the first order of the first level. -/
def OrderBook.GetBestBid (ob : OrderBook) (symbol : String) :
    Except String (Option Order) :=
if symbol ≠ ob.symbol then Except.error "invalid symbol"
else
  match ob.bids with
  | [] => Except.ok none
  | level :: _ =>
    match level.orders with
    | [] => Except.ok none
    | oid :: _ => Except.ok (List.lookup oid ob.orders)

/-- Go OrderBook.GetBestAsk (part_005 lines 296-314). -/
def OrderBook.GetBestAsk (ob : OrderBook) (symbol : String) :
    Except String (Option Order) :=
if symbol ≠ ob.symbol then Except.error "invalid symbol"
else
  match ob.asks with
  | [] => Except.ok none
  | level :: _ =>
    match level.orders with
    | [] => Except.ok none
    | oid :: _ => Except.ok (List.lookup oid ob.orders)

/-- Go OrderBook.GetOrderBookSnapshot (part_005 lines 316-354): levels
with no resting orders are skipped; each emitted level carries the
level's aggregate volume field and the order count. -/
def OrderBook.GetOrderBookSnapshot (ob : OrderBook) (symbol : String) :
    Except String OrderBookSnapshot :=
if symbol ≠ ob.symbol then Except.error "invalid symbol"
else
  Except.ok
    { symbol := ob.symbol
      bids := ob.bids.filterMap fun l =>
        if l.orders.isEmpty then none
        else some { price := l.price, quantity := l.volume,
                    orders := l.orders.length }
      asks := ob.asks.filterMap fun l =>
        if l.orders.isEmpty then none
        else some { price := l.price, quantity := l.volume,
                    orders := l.orders.length } }

/-- Result of the engine's order processing: the book and the incoming
order after mutation, the trades, and the returned error if any
(Go returns ([]*types.Trade, error) while mutating through pointers). -/
structure ProcessResult where
book : OrderBook
order : Order
trades : List Trade
err : Option String
deriving Repr, DecidableEq

namespace MatchingEngine

/-- Go MatchingEngine.updateOrderStatus (engine.go lines 151-158). -/
def updateOrderStatus (o : Order) : Order :=
if o.remainingQty = 0 then { o with status := OrderStatus.FILLED }
else if o.filledQty > 0 then { o with status := OrderStatus.PARTIAL }
else o

/-- One go of the matching loop of MatchingEngine.matchOrder
(engine.go lines 74-146), as fuel-bounded recursion. The Go loop
terminates because every iteration either fully consumes and removes a
resting maker or is the last one; the fuel passed by matchOrder
(store size + 2) therefore bounds the iteration count, and fuel
exhaustion is unreachable from the states exercised here. -/
def matchLoop (fuel : Nat) (ob : OrderBook) (taker : Order)
    (acc : List Trade) : ProcessResult :=
match fuel with
| 0 => { book := ob, order := taker, trades := acc, err := none }
| fuel + 1 =>
  if taker.remainingQty > 0 then
    let best :=
      if taker.side = Side.buy then ob.GetBestAsk taker.symbol
      else ob.GetBestBid taker.symbol
    match best with
    | Except.error e => { book := ob, order := taker, trades := acc, err := some e }
    | Except.ok none => { book := ob, order := taker, trades := acc, err := none }
    | Except.ok (some maker) =>
      if taker.type = OrderType.limit ∧
          ((taker.side = Side.buy ∧ taker.price < maker.price) ∨
           (taker.side = Side.sell ∧ maker.price < taker.price)) then
        { book := ob, order := taker, trades := acc, err := none }
      else
        let tradeQty := min taker.remainingQty maker.remainingQty
        let trade : Trade :=
          if taker.side = Side.buy then
            { symbol := taker.symbol, buyOrderId := taker.id,
              sellOrderId := maker.id, price := maker.price,
              quantity := tradeQty, buyerUserId := taker.userId,
              sellerUserId := maker.userId }
          else
            { symbol := taker.symbol, buyOrderId := maker.id,
              sellOrderId := taker.id, price := maker.price,
              quantity := tradeQty, buyerUserId := maker.userId,
              sellerUserId := taker.userId }
        let taker := updateOrderStatus { taker with
          filledQty := taker.filledQty + tradeQty,
          remainingQty := taker.remainingQty - tradeQty }
        let maker := updateOrderStatus { maker with
          filledQty := maker.filledQty + tradeQty,
          remainingQty := maker.remainingQty - tradeQty }
        let ob := { ob with orders := storeUpdate ob.orders maker.id maker }
        if maker.status = OrderStatus.FILLED then
          match ob.CancelOrder maker.id with
          | Except.error e =>
            { book := ob, order := taker, trades := acc, err := some e }
          | Except.ok ob => matchLoop fuel ob taker (acc ++ [trade])
        else matchLoop fuel ob taker (acc ++ [trade])
  else { book := ob, order := taker, trades := acc, err := none }

/-- Go MatchingEngine.matchOrder (engine.go lines 71-149). -/
def matchOrder (ob : OrderBook) (order : Order) : ProcessResult :=
matchLoop (ob.orders.length + 2) ob order []

/-- Go MatchingEngine.processMarketOrder (engine.go lines 56-69): on a
matching error the trades are dropped (return nil, err); a residual
marks the order REJECTED and returns the executed trades together
with the error. -/
def processMarketOrder (ob : OrderBook) (order : Order) : ProcessResult :=
let r := matchOrder ob order
match r.err with
| some e => { book := r.book, order := r.order, trades := [], err := some e }
| none =>
  if r.order.remainingQty > 0 then
    { book := r.book,
      order := { r.order with status := OrderStatus.REJECTED },
      trades := r.trades,
      err := some "market order could not be fully filled" }
  else r

/-- Go MatchingEngine.ProcessOrder (engine.go lines 24-54), after the
engine has routed the order to the book of its symbol (the registry
get-or-create of lines 29-33 guarantees order.Symbol = ob.symbol for
the book used). A limit/stop residual is handed to AddOrder; an
AddOrder failure is returned together with the executed trades. -/
def ProcessOrder (ob : OrderBook) (order : Order) : ProcessResult :=
if order.type = OrderType.market then processMarketOrder ob order
else
  let r := matchOrder ob order
  match r.err with
  | some e => { book := r.book, order := r.order, trades := [], err := some e }
  | none =>
    if r.order.remainingQty > 0 then
      match r.book.AddOrder r.order with
      | Except.error e =>
        { book := r.book, order := r.order, trades := r.trades, err := some e }
      | Except.ok (ob2, order2) =>
        { book := ob2, order := order2, trades := r.trades, err := none }
    else r

end MatchingEngine

/-- Modelled from the spec: the admission initialisation of submit
(spec 4.2 step 2, "Set status = NEW, filled = 0, remaining = original").
The HTTP admission handler wired in cmd/server/main.go
(internal/api CreateOrder) is not under src/; only an unwired variant
(src/unnamed/part_008) is. The spec's step 2 is therefore taken as the
state of the incoming order when MatchingEngine.ProcessOrder receives
it. The symbol is the book's own, as guaranteed by the engine's
registry demultiplexing. -/
def submitOrder (ob : OrderBook) (id userId : String) (ty : OrderType)
    (side : Side) (price quantity : Int) : ProcessResult :=
MatchingEngine.ProcessOrder ob
  { id := id, userId := userId, symbol := ob.symbol, type := ty,
    side := side, price := price, quantity := quantity,
    filledQty := 0, remainingQty := quantity, status := OrderStatus.NEW }

/-- One book-level operation: a submission or a cancellation. -/
inductive BookOp where
| submit (id userId : String) (ty : OrderType) (side : Side)
    (price quantity : Int)
| cancel (id : String)

/-- Apply one operation to the book; a failed cancel leaves the book
unchanged (CancelOrder errors before any mutation), and a submission
keeps the book state the engine left behind even when an error is
reported alongside. -/
def applyOp (ob : OrderBook) (op : BookOp) : OrderBook :=
match op with
| BookOp.submit id userId ty side price quantity =>
  (submitOrder ob id userId ty side price quantity).book
| BookOp.cancel id =>
  match ob.CancelOrder id with
  | Except.ok ob2 => ob2
  | Except.error _ => ob

/-- Run a sequence of operations from a starting book. -/
def runOps (ob : OrderBook) (ops : List BookOp) : OrderBook :=
List.foldl applyOp ob ops

deriving instance DecidableEq for Except

/-- Go CreateOrderRequest (src/unnamed/part_008): the gin binding tag
on Quantity rejects a missing or non-positive quantity at decode
time. -/
structure CreateOrderRequest where
userId : String
symbol : String
type : OrderType
side : Side
price : Int
quantity : Int
stopPrice : Int
deriving Repr, DecidableEq

/-- The synchronous validation the HTTP handler performs before the
engine is called (part_008 CreateOrder lines 56-71: the binding
rejects quantity ≤ 0; LIMIT needs price > 0; STOP needs
stopPrice > 0). Returns the error message of the failing check. -/
def validateCreateOrder (req : CreateOrderRequest) : Option String :=
if ¬ req.quantity > 0 then some "invalid request"
else if req.type = OrderType.limit ∧ req.price ≤ 0 then
  some "limit orders require a valid price"
else if req.type = OrderType.stop ∧ req.stopPrice ≤ 0 then
  some "stop orders require a valid stop price"
else none

/-- Handler CreateOrder (part_008 lines 55-100) against one book: on a
validation failure the engine is never called and the book is
untouched; otherwise the order is submitted (see submitOrder for the
admission initialisation) and the trades and engine error are
returned. -/
def CreateOrder (ob : OrderBook) (newId : String) (req : CreateOrderRequest) :
    OrderBook × List Trade × Option String :=
match validateCreateOrder req with
| some e => (ob, [], some e)
| none =>
  let r := submitOrder ob newId req.userId req.type req.side req.price req.quantity
  (r.book, r.trades, r.err)

/-- The id oid is a key of the book's id map. -/
def storeHas (ob : OrderBook) (oid : String) : Prop :=
(List.lookup oid ob.orders).isSome

/-- Every order id resting on a price level of either side has an
entry in the id map (the no-missing-entries half of invariant I3). -/
def RestingInStore (ob : OrderBook) : Prop :=
(∀ l ∈ ob.bids, ∀ oid ∈ l.orders, storeHas ob oid) ∧
(∀ l ∈ ob.asks, ∀ oid ∈ l.orders, storeHas ob oid)

/-- Book after BUY LIMIT quantity 50 at 10 has rested (claim C1). -/
def c1Book : OrderBook :=
(submitOrder (NewOrderBook "X") "B" "uB" OrderType.limit Side.buy 10 50).book

/-- Result of then submitting SELL LIMIT quantity 80 at 10: it matches
50 and its residual is re-inserted by AddOrder (claim C1). -/
def c1Res : ProcessResult :=
submitOrder c1Book "S" "uS" OrderType.limit Side.sell 10 80

/-- Scenario S1: BUY LIMIT 100 @ 10 then SELL LIMIT 60 @ 10 on an
empty book (claims C2 and C3). -/
def s1Res : ProcessResult :=
submitOrder
  ((submitOrder (NewOrderBook "X") "B" "uB" OrderType.limit Side.buy 10 100).book)
  "S" "uS" OrderType.limit Side.sell 10 60

/-- SELL LIMIT 10 @ 5 resting, then BUY LIMIT 10 @ 5 fully filling the
maker (claim C4). -/
def c4Res : ProcessResult :=
submitOrder
  ((submitOrder (NewOrderBook "X") "A" "uA" OrderType.limit Side.sell 5 10).book)
  "T" "uT" OrderType.limit Side.buy 5 10

/-- Scenario S4: SELL LIMIT 10 @ 7 as A, then as B (claim C5). -/
def c5Book : OrderBook :=
(submitOrder
  ((submitOrder (NewOrderBook "X") "A" "uA" OrderType.limit Side.sell 7 10).book)
  "B" "uB" OrderType.limit Side.sell 7 10).book

/-- Scenario S4 continued: BUY LIMIT 10 @ 7 (claim C5). -/
def c5Res : ProcessResult :=
submitOrder c5Book "T" "uT" OrderType.limit Side.buy 7 10

/-- SELL LIMIT 10 @ 10 resting under id A (claim C6). -/
def c6Book : OrderBook :=
(submitOrder (NewOrderBook "X") "A" "uA" OrderType.limit Side.sell 10 10).book

/-- Submitting a BUY LIMIT with the already-present id A (claim C6). -/
def c6Res : ProcessResult :=
submitOrder c6Book "A" "uT" OrderType.limit Side.buy 10 5

/-- Scenario S3: SELL LIMIT 10 @ 5 resting, then BUY MARKET 25
(claim C7). -/
def c7Res : ProcessResult :=
submitOrder
  ((submitOrder (NewOrderBook "X") "A" "uA" OrderType.limit Side.sell 5 10).book)
  "T" "uT" OrderType.market Side.buy 0 25

/-- SELL LIMIT 10 @ 100 resting (claim C8). -/
def c8Book : OrderBook :=
(submitOrder (NewOrderBook "X") "M" "uM" OrderType.limit Side.sell 100 10).book

/-- BUY STOP quantity 10 at price 5 against the 100-priced ask
(claim C8). -/
def c8Res : ProcessResult :=
submitOrder c8Book "T" "uT" OrderType.stop Side.buy 5 10

/-- BUY LIMIT 10 @ 10 rested under id B, then cancelled (claim C9). -/
def c9Book : OrderBook :=
applyOp ((submitOrder (NewOrderBook "X") "B" "uB" OrderType.limit Side.buy 10 10).book)
  (BookOp.cancel "B")

/-- An incoming buy limit order used to witness claim C10 on the
empty book. -/
def c10Taker : Order :=
{ id := "T", userId := "u", symbol := "X", type := OrderType.limit,
  side := Side.buy, price := 5, quantity := 3, filledQty := 0,
  remainingQty := 3, status := OrderStatus.NEW }

/-- Two orders that coincide on every field except possibly the order
kind. -/
def agreeExceptType (a b : Order) : Prop :=
a.id = b.id ∧ a.userId = b.userId ∧ a.symbol = b.symbol ∧ a.side = b.side ∧
a.price = b.price ∧ a.quantity = b.quantity ∧ a.filledQty = b.filledQty ∧
a.remainingQty = b.remainingQty ∧ a.status = b.status

/-- The claim C8 taker as the engine sees it, kind STOP. -/
def c8StopTaker : Order :=
{ id := "T", userId := "uT", symbol := "X", type := OrderType.stop,
  side := Side.buy, price := 5, quantity := 10, filledQty := 0,
  remainingQty := 10, status := OrderStatus.NEW }

/-- The same taker with kind MARKET. -/
def c8MarketTaker : Order :=
{ id := "T", userId := "uT", symbol := "X", type := OrderType.market,
  side := Side.buy, price := 5, quantity := 10, filledQty := 0,
  remainingQty := 10, status := OrderStatus.NEW }

/-- A stop order that finds no counterparty on the empty book and
rests (claim C8 witness). -/
def c8RestTaker : Order :=
{ id := "R", userId := "uR", symbol := "X", type := OrderType.stop,
  side := Side.buy, price := 5, quantity := 3, filledQty := 0,
  remainingQty := 3, status := OrderStatus.NEW }

/-- The book after the stop order above has rested. -/
def c8RestBook : OrderBook :=
{ symbol := "X", bids := [{ price := 5, orders := ["R"], volume := 3 }],
  asks := [], orders := [("R", c8RestTaker)] }

/-- Relation between a book state and a later one: the
resting-ids-in-store invariant carries over and no id-map key is ever
lost. -/
def BookPreserved (ob ob2 : OrderBook) : Prop :=
(RestingInStore ob → RestingInStore ob2) ∧
(∀ x, storeHas ob x → storeHas ob2 x)

instance (ob : OrderBook) (oid : String) : Decidable (storeHas ob oid) := by
  unfold storeHas
  infer_instance

/-- The book of claim C9 before the cancellation. -/
def c9PreBook : OrderBook :=
(submitOrder (NewOrderBook "X") "B" "uB" OrderType.limit Side.buy 10 10).book

/-- C1: The per-order accounting of a residual insertion. After BUY
LIMIT 50 @ 10 rests and SELL LIMIT 80 @ 10 is submitted, the sell
matches 50 (one trade) and its residual is inserted on the ask side;
the code's AddOrder reinitialises it, so the resting sell order has
filled = 0 (not 50), remaining = 80 (the full original, not 30) and
status NEW (not PARTIAL), contradicting the claim that it retains
filled > 0, remaining = original - filled and status PARTIAL, and
making filled non-monotonic (50 then 0). -/
theorem C1_residual_reset_eval :
    c1Res.trades =
      [{ symbol := "X", buyOrderId := "B", sellOrderId := "S", price := 10,
         quantity := 50, buyerUserId := "uB", sellerUserId := "uS" }] ∧
    (List.lookup "S" c1Res.book.orders).map Order.filledQty = some 0 ∧
    (List.lookup "S" c1Res.book.orders).map Order.remainingQty = some 80 ∧
    (List.lookup "S" c1Res.book.orders).map Order.status =
      some OrderStatus.NEW := by decide

/-- C2: Scenario S1 evaluated on the code. The trade, the two order
statuses and the buy order's remaining quantity are as the claim
states, but the snapshot shows bids = [(price 10, quantity 100,
1 order)] instead of the claimed aggregate 40: the level volume is
not reduced when the resting maker is partially filled. -/
theorem C2_s1_eval :
    s1Res.trades =
      [{ symbol := "X", buyOrderId := "B", sellOrderId := "S", price := 10,
         quantity := 60, buyerUserId := "uB", sellerUserId := "uS" }] ∧
    s1Res.order.status = OrderStatus.FILLED ∧
    (List.lookup "B" s1Res.book.orders).map Order.status =
      some OrderStatus.PARTIAL ∧
    (List.lookup "B" s1Res.book.orders).map Order.remainingQty = some 40 ∧
    s1Res.book.GetOrderBookSnapshot "X" =
      Except.ok { symbol := "X", bids := [{ price := 10, quantity := 100, orders := 1 }], asks := [] } := by decide

/-- C3: After scenario S1 the single bid level's volume field is 100
while the sum of the remaining quantities of the orders resting at
that level is 40 (the one resting order B has remaining 40), so the
claimed equality fails after this operation. -/
theorem C3_volume_eval :
    s1Res.book.bids = [{ price := 10, orders := ["B"], volume := 100 }] ∧
    (List.lookup "B" s1Res.book.orders).map Order.remainingQty = some 40 ∧
    ((100 : Int) = 40 → False) := by decide

/-- C4: A fully filled maker does not keep status FILLED: after SELL
LIMIT 10 @ 5 rests and BUY LIMIT 10 @ 5 fully fills it, the maker is
removed from its level, but the engine removes it via CancelOrder,
which overwrites the just-assigned FILLED with CANCELLED; the taker
itself is FILLED. -/
theorem C4_maker_status_eval :
    (List.lookup "A" c4Res.book.orders).map Order.status =
      some OrderStatus.CANCELLED ∧
    (List.lookup "A" c4Res.book.orders).map Order.remainingQty = some 0 ∧
    c4Res.book.asks = [{ price := 5, orders := [], volume := 10 }] ∧
    c4Res.order.status = OrderStatus.FILLED := by decide

/-- C5 counterexample: in scenario S4 the incoming BUY LIMIT 10 @ 7
does produce exactly one trade against A, but the book snapshot after
it is NOT asks = [(7, 10, 1)] as the claim states (the level volume
still counts the filled maker A). -/
theorem C5_counterexample :
    c5Res.trades.length = 1 ∧
    c5Res.trades.head?.map Trade.sellOrderId = some "A" ∧
    (c5Res.book.GetOrderBookSnapshot "X" =
      Except.ok { symbol := "X", bids := [], asks := [{ price := 7, quantity := 10, orders := 1 }] } → False) := by
  decide

/-- C5 amended: FIFO within the price holds. SELL LIMIT 10 @ 7 as A,
then as B, then BUY LIMIT 10 @ 7 yields exactly one trade, matching A
and not B; B remains the only order resting at ask price 7 with its
remaining quantity 10 untouched, but the snapshot shows the level as
(price 7, aggregate 20, 1 order) because the volume is not reduced
when the fully filled A is removed. -/
theorem C5_fifo_amended :
    c5Res.trades =
      [{ symbol := "X", buyOrderId := "T", sellOrderId := "A", price := 7,
         quantity := 10, buyerUserId := "uT", sellerUserId := "uA" }] ∧
    c5Res.book.asks = [{ price := 7, orders := ["B"], volume := 20 }] ∧
    (List.lookup "B" c5Res.book.orders).map Order.remainingQty = some 10 ∧
    (List.lookup "B" c5Res.book.orders).map Order.status =
      some OrderStatus.NEW ∧
    c5Res.book.GetOrderBookSnapshot "X" =
      Except.ok { symbol := "X", bids := [], asks := [{ price := 7, quantity := 20, orders := 1 }] } := by decide

/-- C6 counterexample: submitting a BUY LIMIT with the id A of an
order already resting on the book is not a synchronous error and does
mutate state: the duplicate is only checked by AddOrder after
matching, and this taker fully fills against the resting A, so no
error is returned at all, one trade is emitted, and the resting
maker's filled quantity has changed from 0 to 5. -/
theorem C6_counterexample :
    c6Res.err = none ∧
    c6Res.trades.length = 1 ∧
    (List.lookup "A" c6Res.book.orders).map Order.filledQty = some 5 := by
  decide

/-- C7: Scenario S3 on the code. SELL LIMIT 10 @ 5 rests; BUY MARKET
25 executes the available 10 at price 5, is marked REJECTED with
filled = 10 and remaining = 15, the partial trade is returned to the
caller together with the error, and the ask side of the snapshot is
empty. -/
theorem C7_market_partial_reject :
    c7Res.trades =
      [{ symbol := "X", buyOrderId := "T", sellOrderId := "A", price := 5,
         quantity := 10, buyerUserId := "uT", sellerUserId := "uA" }] ∧
    c7Res.order.filledQty = 10 ∧
    c7Res.order.remainingQty = 15 ∧
    c7Res.order.status = OrderStatus.REJECTED ∧
    c7Res.err = some "market order could not be fully filled" ∧
    c7Res.book.GetOrderBookSnapshot "X" =
      Except.ok { symbol := "X", bids := [], asks := [] } := by decide

/-- C8 counterexample: with only a SELL LIMIT 10 @ 100 resting, a BUY
STOP 10 at price 5 does NOT satisfy the claimed LIMIT cross condition
(best ask 100 is not ≤ 5), yet the code executes a trade at price
100: the price check in the matching loop applies only to orders of
kind LIMIT, so a STOP taker crosses unconditionally. -/
theorem C8_counterexample :
    ((100 : Int) ≤ 5 → False) ∧
    c8Res.trades =
      [{ symbol := "X", buyOrderId := "T", sellOrderId := "M", price := 100,
         quantity := 10, buyerUserId := "uT", sellerUserId := "uM" }] := by
  decide

/-- C9 counterexample: after BUY LIMIT 10 @ 10 rests under id B and
is cancelled, B is removed from its price level and its status is
CANCELLED, but the id lookup still contains it, contradicting the
claim that cancellation removes the order from the id lookup. -/
theorem C9_counterexample :
    (List.lookup "B" c9Book.orders).isSome = true ∧
    (List.lookup "B" c9Book.orders).map Order.status =
      some OrderStatus.CANCELLED ∧
    c9Book.bids = [{ price := 10, orders := [], volume := 0 }] := by decide

/-- C6 amended: quantity and limit-price validation happen in the HTTP
handler before the engine is called, returning the error with the book
untouched; a duplicate id is only detected at insertion time, where
AddOrder rejects without inserting (the matching already performed is
not undone: see the counterexample, where a crossing duplicate-id
order trades and a fully filled one is never flagged). -/
theorem C6_amended :
    (∀ (ob : OrderBook) (newId : String) (req : CreateOrderRequest) (e : String),
      validateCreateOrder req = some e →
      CreateOrder ob newId req = (ob, [], some e)) ∧
    (∀ (ob : OrderBook) (o : Order), (List.lookup o.id ob.orders).isSome →
      ob.AddOrder o = Except.error "order already exists") := by
  constructor
  · intro ob newId req e h
    unfold CreateOrder
    rw [h]
  · intro ob o h
    unfold OrderBook.AddOrder
    simp [h]

/-- C6 witness: the handler rejects a zero-quantity limit order on the
empty book without touching it, and AddOrder rejects an order whose id
A is already present on the book of claim C6. -/
theorem C6_amended_witness :
    CreateOrder (NewOrderBook "X") "N"
      { userId := "u", symbol := "X", type := OrderType.limit, side := Side.buy,
        price := 10, quantity := 0, stopPrice := 0 } =
      (NewOrderBook "X", [], some "invalid request") ∧
    c6Book.AddOrder
      { id := "A", userId := "uT", symbol := "X", type := OrderType.limit,
        side := Side.buy, price := 10, quantity := 5, filledQty := 0,
        remainingQty := 5, status := OrderStatus.NEW } =
      Except.error "order already exists" :=
  ⟨C6_amended.1 (NewOrderBook "X") "N"
      { userId := "u", symbol := "X", type := OrderType.limit, side := Side.buy,
        price := 10, quantity := 0, stopPrice := 0 } "invalid request" (by decide),
   C6_amended.2 c6Book
      { id := "A", userId := "uT", symbol := "X", type := OrderType.limit,
        side := Side.buy, price := 10, quantity := 5, filledQty := 0,
        remainingQty := 5, status := OrderStatus.NEW } (by decide)⟩

/-- C10: GetBestBid/GetBestAsk error exactly on a foreign symbol; with
the book's own symbol they never error and return none whenever the
side has no level or its first level holds no orders; and the
matching loop treats the none result as no counterparty and stops,
returning the state unchanged with the trades accumulated so far. -/
theorem C10_best_queries :
    (∀ (ob : OrderBook) (sym : String), sym ≠ ob.symbol →
      ob.GetBestBid sym = Except.error "invalid symbol" ∧
      ob.GetBestAsk sym = Except.error "invalid symbol") ∧
    (∀ (ob : OrderBook) (e : String),
      ob.GetBestBid ob.symbol ≠ Except.error e ∧
      ob.GetBestAsk ob.symbol ≠ Except.error e) ∧
    (∀ (ob : OrderBook), (ob.bids = [] ∨ ∃ l ls, ob.bids = l :: ls ∧ l.orders = []) →
      ob.GetBestBid ob.symbol = Except.ok none) ∧
    (∀ (ob : OrderBook), (ob.asks = [] ∨ ∃ l ls, ob.asks = l :: ls ∧ l.orders = []) →
      ob.GetBestAsk ob.symbol = Except.ok none) ∧
    (∀ (fuel : Nat) (ob : OrderBook) (taker : Order) (acc : List Trade),
      0 < taker.remainingQty →
      (if taker.side = Side.buy then ob.GetBestAsk taker.symbol
       else ob.GetBestBid taker.symbol) = Except.ok none →
      MatchingEngine.matchLoop (fuel + 1) ob taker acc =
        { book := ob, order := taker, trades := acc, err := none }) := by
  refine ⟨?_, ?_, ?_, ?_, ?_⟩
  · intro ob sym h
    constructor
    · unfold OrderBook.GetBestBid
      rw [if_pos h]
    · unfold OrderBook.GetBestAsk
      rw [if_pos h]
  · intro ob e
    constructor
    · unfold OrderBook.GetBestBid
      rw [if_neg (by simp)]
      split
      · simp
      · split
        · simp
        · simp
    · unfold OrderBook.GetBestAsk
      rw [if_neg (by simp)]
      split
      · simp
      · split
        · simp
        · simp
  · intro ob h
    unfold OrderBook.GetBestBid
    rw [if_neg (by simp)]
    rcases h with h | ⟨l, ls, hb, ho⟩
    · rw [h]
    · rw [hb]
      simp [ho]
  · intro ob h
    unfold OrderBook.GetBestAsk
    rw [if_neg (by simp)]
    rcases h with h | ⟨l, ls, ha, ho⟩
    · rw [h]
    · rw [ha]
      simp [ho]
  · intro fuel ob taker acc hrem hbest
    unfold MatchingEngine.matchLoop
    rw [if_pos hrem, hbest]

/-- C10 witness: concrete instances of each part on the empty book. -/
theorem C10_best_queries_witness :
    ((NewOrderBook "X").GetBestBid "Y" = Except.error "invalid symbol" ∧
     (NewOrderBook "X").GetBestAsk "Y" = Except.error "invalid symbol") ∧
    (NewOrderBook "X").GetBestBid "X" = Except.ok none ∧
    (NewOrderBook "X").GetBestAsk "X" = Except.ok none ∧
    MatchingEngine.matchLoop 1 (NewOrderBook "X") c10Taker [] =
      { book := NewOrderBook "X", order := c10Taker, trades := [], err := none } :=
  ⟨C10_best_queries.1 (NewOrderBook "X") "Y" (by decide),
   C10_best_queries.2.2.1 (NewOrderBook "X") (Or.inl rfl),
   C10_best_queries.2.2.2.1 (NewOrderBook "X") (Or.inl rfl),
   C10_best_queries.2.2.2.2 0 (NewOrderBook "X") c10Taker [] (by decide) (by decide)⟩

lemma agree_updateOrderStatus (i u s : String) (ty ty' : OrderType)
    (sd : Side) (p q f r : Int) (st : OrderStatus) :
    agreeExceptType
      (MatchingEngine.updateOrderStatus (Order.mk i u s ty sd p q f r st))
      (MatchingEngine.updateOrderStatus (Order.mk i u s ty' sd p q f r st)) := by
  unfold MatchingEngine.updateOrderStatus
  by_cases h1 : r = 0
  · simp [agreeExceptType, h1]
  · by_cases h2 : f > 0
    · simp [agreeExceptType, h1, h2]
    · simp [agreeExceptType, h1, h2]

lemma updateOrderStatus_type (o : Order) :
    (MatchingEngine.updateOrderStatus o).type = o.type := by
  unfold MatchingEngine.updateOrderStatus
  by_cases h1 : o.remainingQty = 0
  · simp [h1]
  · by_cases h2 : o.filledQty > 0
    · simp [h1, h2]
    · simp [h1, h2]

lemma matchLoop_stop_market (fuel : Nat) :
    ∀ (ob : OrderBook) (acc : List Trade) (a b : Order),
      agreeExceptType a b → a.type = OrderType.stop →
      b.type = OrderType.market →
      (MatchingEngine.matchLoop fuel ob a acc).book =
        (MatchingEngine.matchLoop fuel ob b acc).book ∧
      (MatchingEngine.matchLoop fuel ob a acc).trades =
        (MatchingEngine.matchLoop fuel ob b acc).trades ∧
      (MatchingEngine.matchLoop fuel ob a acc).err =
        (MatchingEngine.matchLoop fuel ob b acc).err ∧
      agreeExceptType (MatchingEngine.matchLoop fuel ob a acc).order
        (MatchingEngine.matchLoop fuel ob b acc).order := by
  induction fuel with
  | zero =>
    intro ob acc a b hab ha hb
    exact ⟨rfl, rfl, rfl, hab⟩
  | succ n ih =>
    intro ob acc a b hab ha hb
    obtain ⟨ia, ua, sa, tya, sda, pa, qa, fa, ra, sta⟩ := a
    obtain ⟨ib, ub, sb, tyb, sdb, pb, qb, fb, rb, stb⟩ := b
    obtain ⟨h1, h2, h3, h4, h5, h6, h7, h8, h9⟩ := hab
    dsimp at h1 h2 h3 h4 h5 h6 h7 h8 h9 ha hb
    subst h1 h2 h3 h4 h5 h6 h7 h8 h9 ha hb
    dsimp only [MatchingEngine.matchLoop]
    by_cases hr : ra > 0
    · rw [if_pos hr, if_pos hr]
      cases hbest : (if sda = Side.buy then ob.GetBestAsk sa else ob.GetBestBid sa) with
      | error e => exact ⟨rfl, rfl, rfl, by simp [agreeExceptType]⟩
      | ok mo =>
        cases mo with
        | none => exact ⟨rfl, rfl, rfl, by simp [agreeExceptType]⟩
        | some maker =>
          dsimp only
          rw [if_neg (show ¬ (OrderType.stop = OrderType.limit ∧
              (sda = Side.buy ∧ pa < maker.price ∨
               sda = Side.sell ∧ maker.price < pa)) from by simp)]
          rw [if_neg (show ¬ (OrderType.market = OrderType.limit ∧
              (sda = Side.buy ∧ pa < maker.price ∨
               sda = Side.sell ∧ maker.price < pa)) from by simp)]
          by_cases hm :
            (MatchingEngine.updateOrderStatus { maker with
              filledQty := maker.filledQty + ra ⊓ maker.remainingQty,
              remainingQty := maker.remainingQty - ra ⊓ maker.remainingQty }).status =
            OrderStatus.FILLED
          · rw [if_pos hm]
            rw [if_pos hm]
            cases hc : ({ ob with orders := storeUpdate ob.orders (MatchingEngine.updateOrderStatus { maker with filledQty := maker.filledQty + ra ⊓ maker.remainingQty, remainingQty := maker.remainingQty - ra ⊓ maker.remainingQty }).id (MatchingEngine.updateOrderStatus { maker with filledQty := maker.filledQty + ra ⊓ maker.remainingQty, remainingQty := maker.remainingQty - ra ⊓ maker.remainingQty }) }).CancelOrder (MatchingEngine.updateOrderStatus { maker with filledQty := maker.filledQty + ra ⊓ maker.remainingQty, remainingQty := maker.remainingQty - ra ⊓ maker.remainingQty }).id with
            | error e =>
              exact ⟨rfl, rfl, rfl, agree_updateOrderStatus _ _ _ _ _ _ _ _ _ _ _⟩
            | ok ob2 =>
              exact ih _ _ _ _ (agree_updateOrderStatus _ _ _ _ _ _ _ _ _ _ _)
                (by rw [updateOrderStatus_type]) (by rw [updateOrderStatus_type])
          · rw [if_neg hm, if_neg hm]
            exact ih _ _ _ _ (agree_updateOrderStatus _ _ _ _ _ _ _ _ _ _ _)
              (by rw [updateOrderStatus_type]) (by rw [updateOrderStatus_type])
    · rw [if_neg hr, if_neg hr]
      exact ⟨rfl, rfl, rfl, by simp [agreeExceptType]⟩

/-- C8 amended: a STOP order is matched with NO price condition: the
cross check of the matching loop applies only to kind LIMIT, so a STOP
taker behaves exactly like a MARKET taker inside the loop (same book
effects, same trades, same error, and the same fill counters and
status on the incoming order), stopping only when the opposite side is
exhausted or the taker fills; unlike MARKET, a STOP residual then
rests on the book through AddOrder exactly as a LIMIT residual does,
and the order is not rejected. -/
theorem C8_amended :
    (∀ (fuel : Nat) (ob : OrderBook) (acc : List Trade) (a b : Order),
      agreeExceptType a b → a.type = OrderType.stop →
      b.type = OrderType.market →
      (MatchingEngine.matchLoop fuel ob a acc).book =
        (MatchingEngine.matchLoop fuel ob b acc).book ∧
      (MatchingEngine.matchLoop fuel ob a acc).trades =
        (MatchingEngine.matchLoop fuel ob b acc).trades ∧
      (MatchingEngine.matchLoop fuel ob a acc).err =
        (MatchingEngine.matchLoop fuel ob b acc).err ∧
      agreeExceptType (MatchingEngine.matchLoop fuel ob a acc).order
        (MatchingEngine.matchLoop fuel ob b acc).order) ∧
    (∀ (ob : OrderBook) (o : Order) (ob2 : OrderBook) (o2 : Order),
      o.type = OrderType.stop →
      (MatchingEngine.matchOrder ob o).err = none →
      (MatchingEngine.matchOrder ob o).order.remainingQty > 0 →
      (MatchingEngine.matchOrder ob o).book.AddOrder
        (MatchingEngine.matchOrder ob o).order = Except.ok (ob2, o2) →
      MatchingEngine.ProcessOrder ob o =
        { book := ob2, order := o2,
          trades := (MatchingEngine.matchOrder ob o).trades, err := none }) := by
  constructor
  · exact fun fuel => matchLoop_stop_market fuel
  · intro ob o ob2 o2 hty herr hrem hadd
    unfold MatchingEngine.ProcessOrder
    rw [if_neg (by rw [hty]; simp)]
    simp only [herr, hrem, hadd, if_true]

/-- C8 witness: the stop/market equivalence at the book of claim C8
and the resting of an uncrossed stop residual on the empty book. -/
theorem C8_amended_witness :
    ((MatchingEngine.matchLoop 3 c8Book c8StopTaker []).book =
       (MatchingEngine.matchLoop 3 c8Book c8MarketTaker []).book ∧
     (MatchingEngine.matchLoop 3 c8Book c8StopTaker []).trades =
       (MatchingEngine.matchLoop 3 c8Book c8MarketTaker []).trades ∧
     (MatchingEngine.matchLoop 3 c8Book c8StopTaker []).err =
       (MatchingEngine.matchLoop 3 c8Book c8MarketTaker []).err ∧
     agreeExceptType (MatchingEngine.matchLoop 3 c8Book c8StopTaker []).order
       (MatchingEngine.matchLoop 3 c8Book c8MarketTaker []).order) ∧
    MatchingEngine.ProcessOrder (NewOrderBook "X") c8RestTaker =
      { book := c8RestBook, order := c8RestTaker, trades := [], err := none } :=
  ⟨C8_amended.1 3 c8Book [] c8StopTaker c8MarketTaker
     ⟨rfl, rfl, rfl, rfl, rfl, rfl, rfl, rfl, rfl⟩ rfl rfl,
   C8_amended.2 (NewOrderBook "X") c8RestTaker c8RestBook c8RestTaker rfl
     (by decide) (by decide) (by decide)⟩

lemma lookup_storeUpdate_isSome (oid : String) (o : Order) :
    ∀ (s : List (String × Order)) (k : String),
    (List.lookup k (storeUpdate s oid o)).isSome = (List.lookup k s).isSome := by
  intro s
  induction s with
  | nil => intro k; rfl
  | cons p rest ih =>
    intro k
    unfold storeUpdate
    by_cases hp : p.1 = oid
    · simp only [List.map, if_pos hp]
      by_cases hk : k = p.1
      · subst hk
        simp [List.lookup, hp]
      · rw [List.lookup, List.lookup]
        have h1 : (k == oid) = false := by
          rw [← hp]
          exact beq_false_of_ne hk
        have h2 : (k == p.1) = false := beq_false_of_ne hk
        rw [h1, h2]
        exact ih k
    · simp only [List.map, if_neg hp]
      rw [List.lookup, List.lookup]
      by_cases hk : k = p.1
      · subst hk
        simp [List.lookup]
      · have h2 : (k == p.1) = false := beq_false_of_ne hk
        rw [h2]
        exact ih k

lemma mem_appendToLevel (price : Int) (oid : String) (rem : Int) :
    ∀ (levels : List PriceLevel), ∀ l' ∈ appendToLevel levels price oid rem,
      ∀ x ∈ l'.orders, (∃ l ∈ levels, x ∈ l.orders) ∨ x = oid := by
  intro levels
  induction levels with
  | nil =>
    intro l' h
    cases h
  | cons l ls ih =>
    intro l' hl' x hx
    unfold appendToLevel at hl'
    by_cases hp : l.price = price
    · rw [if_pos hp] at hl'
      cases hl' with
      | head =>
        rcases List.mem_append.mp hx with h | h
        · exact Or.inl ⟨l, List.mem_cons_self l ls, h⟩
        · right
          simpa using h
      | tail _ h =>
        exact Or.inl ⟨l', List.mem_cons_of_mem l h, hx⟩
    · rw [if_neg hp] at hl'
      cases hl' with
      | head =>
        exact Or.inl ⟨l, List.mem_cons_self l ls, hx⟩
      | tail _ h =>
        rcases ih l' h x hx with ⟨l0, hl0, hx0⟩ | h0
        · exact Or.inl ⟨l0, List.mem_cons_of_mem l hl0, hx0⟩
        · exact Or.inr h0

lemma mem_insertBidLevel (nl : PriceLevel) :
    ∀ (levels : List PriceLevel), ∀ l' ∈ insertBidLevel levels nl,
      l' ∈ levels ∨ l' = nl := by
  intro levels
  induction levels with
  | nil =>
    intro l' h
    unfold insertBidLevel at h
    rcases List.mem_singleton.mp h with h
    exact Or.inr h
  | cons x xs ih =>
    intro l' h
    unfold insertBidLevel at h
    by_cases hc : x.price < nl.price
    · rw [if_pos hc] at h
      cases h with
      | head => exact Or.inr rfl
      | tail _ h => exact Or.inl h
    · rw [if_neg hc] at h
      cases h with
      | head => exact Or.inl (List.mem_cons_self x xs)
      | tail _ h =>
        rcases ih l' h with h0 | h0
        · exact Or.inl (List.mem_cons_of_mem x h0)
        · exact Or.inr h0

lemma mem_insertAskLevel (nl : PriceLevel) :
    ∀ (levels : List PriceLevel), ∀ l' ∈ insertAskLevel levels nl,
      l' ∈ levels ∨ l' = nl := by
  intro levels
  induction levels with
  | nil =>
    intro l' h
    unfold insertAskLevel at h
    rcases List.mem_singleton.mp h with h
    exact Or.inr h
  | cons x xs ih =>
    intro l' h
    unfold insertAskLevel at h
    by_cases hc : nl.price < x.price
    · rw [if_pos hc] at h
      cases h with
      | head => exact Or.inr rfl
      | tail _ h => exact Or.inl h
    · rw [if_neg hc] at h
      cases h with
      | head => exact Or.inl (List.mem_cons_self x xs)
      | tail _ h =>
        rcases ih l' h with h0 | h0
        · exact Or.inl (List.mem_cons_of_mem x h0)
        · exact Or.inr h0

lemma mem_removeOrderFromLevels (price : Int) (oid : String) (rem : Int) :
    ∀ (levels : List PriceLevel), ∀ l' ∈ removeOrderFromLevels levels price oid rem,
      ∀ x ∈ l'.orders, ∃ l ∈ levels, x ∈ l.orders := by
  intro levels
  induction levels with
  | nil =>
    intro l' h
    cases h
  | cons l ls ih =>
    intro l' hl' x hx
    unfold removeOrderFromLevels at hl'
    by_cases hp : l.price = price
    · rw [if_pos hp] at hl'
      cases hl' with
      | head =>
        refine ⟨l, List.mem_cons_self l ls, ?_⟩
        unfold PriceLevel.removeOrder at hx
        by_cases hco : l.orders.contains oid
        · rw [if_pos hco] at hx
          exact List.mem_of_mem_erase hx
        · rw [if_neg hco] at hx
          exact hx
      | tail _ h =>
        exact ⟨l', List.mem_cons_of_mem l h, hx⟩
    · rw [if_neg hp] at hl'
      cases hl' with
      | head =>
        exact ⟨l, List.mem_cons_self l ls, hx⟩
      | tail _ h =>
        rcases ih l' h x hx with ⟨l0, hl0, hx0⟩
        exact ⟨l0, List.mem_cons_of_mem l hl0, hx0⟩

lemma bookPreserved_refl (ob : OrderBook) : BookPreserved ob ob :=
⟨fun h => h, fun _ h => h⟩

lemma bookPreserved_trans {a b c : OrderBook}
    (h1 : BookPreserved a b) (h2 : BookPreserved b c) : BookPreserved a c :=
⟨fun h => h2.1 (h1.1 h), fun x h => h2.2 x (h1.2 x h)⟩

lemma storeHas_cons (x oid : String) (o : Order) (s : List (String × Order)) :
    (List.lookup x ((oid, o) :: s)).isSome = true ↔
      x = oid ∨ (List.lookup x s).isSome = true := by
  rw [List.lookup]
  by_cases h : x = oid
  · subst h
    simp
  · rw [beq_false_of_ne h]
    simp [h]

lemma storeUpdate_preserved (ob : OrderBook) (oid : String) (o : Order) :
    BookPreserved ob { ob with orders := storeUpdate ob.orders oid o } := by
  constructor
  · intro h
    constructor
    · intro l hl x hx
      unfold storeHas
      rw [lookup_storeUpdate_isSome]
      exact h.1 l hl x hx
    · intro l hl x hx
      unfold storeHas
      rw [lookup_storeUpdate_isSome]
      exact h.2 l hl x hx
  · intro x h
    unfold storeHas at h ⊢
    rw [lookup_storeUpdate_isSome]
    exact h

lemma addOrder_preserved (ob : OrderBook) (o : Order) (ob2 : OrderBook) (o2 : Order)
    (hadd : ob.AddOrder o = Except.ok (ob2, o2)) : BookPreserved ob ob2 := by
  unfold OrderBook.AddOrder at hadd
  by_cases hdup : (List.lookup o.id ob.orders).isSome
  · rw [if_pos hdup] at hadd
    cases hadd
  · rw [if_neg hdup] at hadd
    by_cases hside : o.side = Side.buy
    · rw [if_pos hside] at hadd
      by_cases hany : ob.bids.any fun l => l.price = o.price
      · rw [if_pos hany] at hadd
        simp only [Except.ok.injEq, Prod.mk.injEq] at hadd
        obtain ⟨h1, h2⟩ := hadd
        subst h1
        constructor
        · intro h
          constructor
          · intro l hl x hx
            rcases mem_appendToLevel _ _ _ ob.bids l hl x hx with ⟨l0, hl0, hx0⟩ | hx0
            · exact (storeHas_cons x _ _ _).mpr (Or.inr (h.1 l0 hl0 x hx0))
            · exact (storeHas_cons x _ _ _).mpr (Or.inl hx0)
          · intro l hl x hx
            exact (storeHas_cons x _ _ _).mpr (Or.inr (h.2 l hl x hx))
        · intro x hx
          exact (storeHas_cons x _ _ _).mpr (Or.inr hx)
      · rw [if_neg hany] at hadd
        simp only [Except.ok.injEq, Prod.mk.injEq] at hadd
        obtain ⟨h1, h2⟩ := hadd
        subst h1
        constructor
        · intro h
          constructor
          · intro l hl x hx
            rcases mem_insertBidLevel _ ob.bids l hl with hl0 | hl0
            · exact (storeHas_cons x _ _ _).mpr (Or.inr (h.1 l hl0 x hx))
            · subst hl0
              have : x = o.id := by simpa using hx
              exact (storeHas_cons x _ _ _).mpr (Or.inl this)
          · intro l hl x hx
            exact (storeHas_cons x _ _ _).mpr (Or.inr (h.2 l hl x hx))
        · intro x hx
          exact (storeHas_cons x _ _ _).mpr (Or.inr hx)
    · rw [if_neg hside] at hadd
      by_cases hany : ob.asks.any fun l => l.price = o.price
      · rw [if_pos hany] at hadd
        simp only [Except.ok.injEq, Prod.mk.injEq] at hadd
        obtain ⟨h1, h2⟩ := hadd
        subst h1
        constructor
        · intro h
          constructor
          · intro l hl x hx
            exact (storeHas_cons x _ _ _).mpr (Or.inr (h.1 l hl x hx))
          · intro l hl x hx
            rcases mem_appendToLevel _ _ _ ob.asks l hl x hx with ⟨l0, hl0, hx0⟩ | hx0
            · exact (storeHas_cons x _ _ _).mpr (Or.inr (h.2 l0 hl0 x hx0))
            · exact (storeHas_cons x _ _ _).mpr (Or.inl hx0)
        · intro x hx
          exact (storeHas_cons x _ _ _).mpr (Or.inr hx)
      · rw [if_neg hany] at hadd
        simp only [Except.ok.injEq, Prod.mk.injEq] at hadd
        obtain ⟨h1, h2⟩ := hadd
        subst h1
        constructor
        · intro h
          constructor
          · intro l hl x hx
            exact (storeHas_cons x _ _ _).mpr (Or.inr (h.1 l hl x hx))
          · intro l hl x hx
            rcases mem_insertAskLevel _ ob.asks l hl with hl0 | hl0
            · exact (storeHas_cons x _ _ _).mpr (Or.inr (h.2 l hl0 x hx))
            · subst hl0
              have : x = o.id := by simpa using hx
              exact (storeHas_cons x _ _ _).mpr (Or.inl this)
        · intro x hx
          exact (storeHas_cons x _ _ _).mpr (Or.inr hx)

lemma cancelOrder_preserved (ob : OrderBook) (oid : String) (ob2 : OrderBook)
    (hc : ob.CancelOrder oid = Except.ok ob2) : BookPreserved ob ob2 := by
  unfold OrderBook.CancelOrder at hc
  cases hlk : List.lookup oid ob.orders with
  | none =>
    rw [hlk] at hc
    cases hc
  | some order =>
    rw [hlk] at hc
    dsimp only at hc
    by_cases hst : order.status = OrderStatus.CANCELLED
    · rw [if_pos hst] at hc
      cases hc
    · rw [if_neg hst] at hc
      by_cases hside : order.side = Side.buy
      · rw [if_pos hside] at hc
        simp only [Except.ok.injEq] at hc
        subst hc
        constructor
        · intro h
          constructor
          · intro l hl x hx
            rcases mem_removeOrderFromLevels _ _ _ ob.bids l hl x hx with ⟨l0, hl0, hx0⟩
            simp only [storeHas]
            rw [lookup_storeUpdate_isSome]
            exact h.1 l0 hl0 x hx0
          · intro l hl x hx
            simp only [storeHas]
            rw [lookup_storeUpdate_isSome]
            exact h.2 l hl x hx
        · intro x h
          simp only [storeHas] at h ⊢
          rw [lookup_storeUpdate_isSome]
          exact h
      · rw [if_neg hside] at hc
        simp only [Except.ok.injEq] at hc
        subst hc
        constructor
        · intro h
          constructor
          · intro l hl x hx
            simp only [storeHas]
            rw [lookup_storeUpdate_isSome]
            exact h.1 l hl x hx
          · intro l hl x hx
            rcases mem_removeOrderFromLevels _ _ _ ob.asks l hl x hx with ⟨l0, hl0, hx0⟩
            simp only [storeHas]
            rw [lookup_storeUpdate_isSome]
            exact h.2 l0 hl0 x hx0
        · intro x h
          simp only [storeHas] at h ⊢
          rw [lookup_storeUpdate_isSome]
          exact h

lemma matchLoop_preserved (fuel : Nat) :
    ∀ (ob : OrderBook) (taker : Order) (acc : List Trade),
      BookPreserved ob (MatchingEngine.matchLoop fuel ob taker acc).book := by
  induction fuel with
  | zero =>
    intro ob taker acc
    exact bookPreserved_refl ob
  | succ n ih =>
    intro ob taker acc
    dsimp only [MatchingEngine.matchLoop]
    by_cases hr : taker.remainingQty > 0
    · rw [if_pos hr]
      cases hbest : (if taker.side = Side.buy then ob.GetBestAsk taker.symbol else ob.GetBestBid taker.symbol) with
      | error e => exact bookPreserved_refl ob
      | ok mo =>
        cases mo with
        | none => exact bookPreserved_refl ob
        | some maker =>
          dsimp only
          by_cases hcross : taker.type = OrderType.limit ∧
              (taker.side = Side.buy ∧ taker.price < maker.price ∨
               taker.side = Side.sell ∧ maker.price < taker.price)
          · rw [if_pos hcross]
            exact bookPreserved_refl ob
          · rw [if_neg hcross]
            by_cases hm :
              (MatchingEngine.updateOrderStatus { maker with filledQty := maker.filledQty + taker.remainingQty ⊓ maker.remainingQty, remainingQty := maker.remainingQty - taker.remainingQty ⊓ maker.remainingQty }).status = OrderStatus.FILLED
            · rw [if_pos hm]
              cases hc : ({ ob with orders := storeUpdate ob.orders (MatchingEngine.updateOrderStatus { maker with filledQty := maker.filledQty + taker.remainingQty ⊓ maker.remainingQty, remainingQty := maker.remainingQty - taker.remainingQty ⊓ maker.remainingQty }).id (MatchingEngine.updateOrderStatus { maker with filledQty := maker.filledQty + taker.remainingQty ⊓ maker.remainingQty, remainingQty := maker.remainingQty - taker.remainingQty ⊓ maker.remainingQty }) }).CancelOrder (MatchingEngine.updateOrderStatus { maker with filledQty := maker.filledQty + taker.remainingQty ⊓ maker.remainingQty, remainingQty := maker.remainingQty - taker.remainingQty ⊓ maker.remainingQty }).id with
              | error e =>
                dsimp only
                exact storeUpdate_preserved ob _ _
              | ok ob2 =>
                dsimp only
                exact bookPreserved_trans
                  (bookPreserved_trans (storeUpdate_preserved ob _ _)
                    (cancelOrder_preserved _ _ _ hc))
                  (ih ob2 _ _)
            · rw [if_neg hm]
              exact bookPreserved_trans (storeUpdate_preserved ob _ _) (ih _ _ _)
    · rw [if_neg hr]
      exact bookPreserved_refl ob

lemma matchOrder_preserved (ob : OrderBook) (o : Order) :
    BookPreserved ob (MatchingEngine.matchOrder ob o).book :=
matchLoop_preserved _ ob o []

lemma processOrder_preserved (ob : OrderBook) (o : Order) :
    BookPreserved ob (MatchingEngine.ProcessOrder ob o).book := by
  unfold MatchingEngine.ProcessOrder
  by_cases hty : o.type = OrderType.market
  · rw [if_pos hty]
    unfold MatchingEngine.processMarketOrder
    cases herr : (MatchingEngine.matchOrder ob o).err with
    | some e =>
      simp only [herr]
      exact matchOrder_preserved ob o
    | none =>
      simp only [herr]
      by_cases hrem : (MatchingEngine.matchOrder ob o).order.remainingQty > 0
      · simp only [if_pos hrem]
        exact matchOrder_preserved ob o
      · simp only [if_neg hrem]
        exact matchOrder_preserved ob o
  · rw [if_neg hty]
    cases herr : (MatchingEngine.matchOrder ob o).err with
    | some e =>
      simp only [herr]
      exact matchOrder_preserved ob o
    | none =>
      simp only [herr]
      by_cases hrem : (MatchingEngine.matchOrder ob o).order.remainingQty > 0
      · simp only [if_pos hrem]
        cases hadd : (MatchingEngine.matchOrder ob o).book.AddOrder
            (MatchingEngine.matchOrder ob o).order with
        | error e =>
          simp only [hadd]
          exact matchOrder_preserved ob o
        | ok pr =>
          obtain ⟨ob2, o2⟩ := pr
          simp only [hadd]
          exact bookPreserved_trans (matchOrder_preserved ob o)
            (addOrder_preserved _ _ _ _ hadd)
      · simp only [if_neg hrem]
        exact matchOrder_preserved ob o

lemma applyOp_preserved (ob : OrderBook) (op : BookOp) :
    BookPreserved ob (applyOp ob op) := by
  cases op with
  | submit id userId ty side price quantity =>
    exact processOrder_preserved ob _
  | cancel id =>
    unfold applyOp
    dsimp only
    cases hc : ob.CancelOrder id with
    | ok ob2 => exact cancelOrder_preserved _ _ _ hc
    | error e => exact bookPreserved_refl ob

lemma runOps_preserved (ops : List BookOp) :
    ∀ ob : OrderBook, BookPreserved ob (runOps ob ops) := by
  induction ops with
  | nil =>
    intro ob
    exact bookPreserved_refl ob
  | cons op rest ih =>
    intro ob
    exact bookPreserved_trans (applyOp_preserved ob op) (ih (applyOp ob op))

lemma newOrderBook_resting (sym : String) : RestingInStore (NewOrderBook sym) := by
  constructor
  · intro l hl
    cases hl
  · intro l hl
    cases hl

theorem C9_amended :
    (∀ (sym : String) (ops : List BookOp),
      RestingInStore (runOps (NewOrderBook sym) ops)) ∧
    (∀ (ob : OrderBook) (op : BookOp) (x : String),
      storeHas ob x → storeHas (applyOp ob op) x) ∧
    ((List.lookup "B" c9Book.orders).map Order.status =
       some OrderStatus.CANCELLED ∧
     c9Book.bids = [{ price := 10, orders := [], volume := 0 }] ∧
     storeHas c9PreBook "B") := by
  refine ⟨?_, ?_, ?_, ?_, ?_⟩
  · intro sym ops
    exact (runOps_preserved ops (NewOrderBook sym)).1 (newOrderBook_resting sym)
  · intro ob op x h
    exact (applyOp_preserved ob op).2 x h
  · decide
  · decide
  · decide

theorem C9_amended_witness :
    RestingInStore (runOps (NewOrderBook "X") []) ∧
    storeHas (applyOp c9PreBook (BookOp.cancel "B")) "B" :=
  ⟨C9_amended.1 "X" [],
   C9_amended.2.1 c9PreBook (BookOp.cancel "B") "B" (by decide)⟩
